import Mathlib

/-!
Verification of the Inveritax scraper proof-of-concept against its
natural-language specification.

The development shallowly embeds the parts of the repository that the
claims are about:

* `src/data_normalizer.py` (`TaxDataNormalizer`): dynamic Python values
  are modelled by the inductive type `PyVal`; dictionaries are ordered
  association lists with string keys (Python also permits non-string
  keys, which this model cannot represent; none of the settled claims
  depends on that difference, and the one claim about malformed keys is
  settled through a different, representable malformed input).
  Fallible Python code (attribute errors, type errors) is modelled in
  the `Except String` monad; in-place mutation of the input bundles
  performed through list aliasing (`list.extend` on a list obtained
  from `dict.get`) is modelled by returning the updated value
  alongside the result, and the model assumes the input tree has no
  internal sharing.  Python `float` is modelled by `Rat`;
  `datetime.now().isoformat()` is modelled by an explicit `now`
  parameter threaded through the functions.  The returned pandas
  DataFrames hold exactly the accumulated row lists, so tables are
  modelled by those lists.

* `src/scraper.py` (`extract_aspnet_tokens` and the token-carrying
  protocol steps of `BrownCountyScraper`): an HTML response is
  modelled by its sequence of hidden input fields, and the token set
  by an association list with Python `dict.update` semantics.
-/

namespace Spec2Proof

/-- A Python value, as used by the normalizer: `None`, `str`, `int`,
`float` (modelled by `Rat`), `list`, and `dict` with string keys in
insertion order. -/
inductive PyVal where
  | none : PyVal
  | str : String → PyVal
  | int : Int → PyVal
  | float : Rat → PyVal
  | list : List PyVal → PyVal
  | dict : List (String × PyVal) → PyVal
deriving Repr, Inhabited

/-- Python dictionaries with string keys, in insertion order. -/
abbrev PyDict := List (String × PyVal)

/-- First binding of a key in a dictionary (Python dict keys are
unique, so first-binding lookup agrees with Python lookup). -/
def dlookup (xs : PyDict) (k : String) : Option PyVal :=
  (xs.find? (fun kv => kv.1 == k)).map (fun kv => kv.2)

/-- Python `d.get(k, default)`. -/
def dget (xs : PyDict) (k : String) (dflt : PyVal) : PyVal :=
  (dlookup xs k).getD dflt

/-- Python `k in d`. -/
def dcontains (xs : PyDict) (k : String) : Bool :=
  (dlookup xs k).isSome

/-- Overwrite the value stored under a key (used to model in-place
mutation of a list stored in a dictionary). -/
def dset (xs : PyDict) (k : String) (v : PyVal) : PyDict :=
  if dcontains xs k then
    xs.map (fun kv => if kv.1 == k then (kv.1, v) else kv)
  else xs ++ [(k, v)]

/-- Python truthiness. -/
def pyTruthy : PyVal → Bool
  | .none => false
  | .str s => !(s == "")
  | .int n => !(n == 0)
  | .float q => !(q == 0)
  | .list xs => !xs.isEmpty
  | .dict xs => !xs.isEmpty

/-- Python `a or b` on values: `a` if truthy, else `b`. -/
def pyOrV (a b : PyVal) : PyVal :=
  if pyTruthy a then a else b

/-- Truthiness of an optional string (Python `None`/`''` are falsy). -/
def optStrTruthy : Option String → Bool
  | .none => false
  | .some s => !(s == "")

/-- Truthiness of an optional float. -/
def optRatTruthy : Option Rat → Bool
  | .none => false
  | .some q => !(q == 0)

/-- Attribute access used as `v.get(...)` / `v.items()`: succeeds only
on a dictionary, otherwise Python raises `AttributeError`. -/
def asDict : PyVal → Except String PyDict
  | .dict xs => .ok xs
  | _ => .error "AttributeError"

/-- Python iteration `for x in v`: lists yield their elements, strings
their one-character strings, dicts their keys; anything else raises
`TypeError`. -/
def pyIter : PyVal → Except String (List PyVal)
  | .list xs => .ok xs
  | .str s => .ok (s.data.map (fun c => .str c.toString))
  | .dict xs => .ok (xs.map (fun kv => .str kv.1))
  | _ => .error "TypeError"

/-- Python `len(v)` for sized values, `TypeError` otherwise. -/
def pyLenE : PyVal → Except String Nat
  | .list xs => .ok xs.length
  | .str s => .ok s.length
  | .dict xs => .ok xs.length
  | _ => .error "TypeError"

/-- ASCII digit test; this is `str.isdigit` on the ASCII range, stated
through `Char.toNat` so that numeric bounds fall out directly. -/
def charIsDigit (c : Char) : Bool :=
  48 ≤ c.toNat && c.toNat ≤ 57

/-- Python `s.isdigit()`: non-empty and all digits. -/
def strIsDigit (s : String) : Bool :=
  !s.isEmpty && s.data.all charIsDigit

/-- Numeric value of a digit string (Python `int(s)` after an
`isdigit` check). -/
def natOfDigits (s : String) : Nat :=
  s.data.foldl (fun a c => a * 10 + (c.toNat - 48)) 0

/-- Python lower-casing (ASCII, as used by the status/type cues). -/
def strLower (s : String) : String :=
  String.mk (s.data.map Char.toLower)

/-- Python `s.strip()`: drop whitespace from both ends. -/
def pyStrip (s : String) : String :=
  String.mk (((s.data.dropWhile Char.isWhitespace).reverse.dropWhile Char.isWhitespace).reverse)

/-- Character-list prefix test. -/
def listStartsWith : List Char → List Char → Bool
  | [], _ => true
  | _ :: _, [] => false
  | a :: as, b :: bs => a == b && listStartsWith as bs

/-- Character-list substring test. -/
def listHasInfix (needle hay : List Char) : Bool :=
  match hay with
  | [] => needle.isEmpty
  | _ :: t => listStartsWith needle hay || listHasInfix needle t

/-- Python substring containment `needle in hay`. -/
def strContains (hay needle : String) : Bool :=
  listHasInfix needle.data hay.data

/-- `re.sub(r'[^\d.-]', '', s)`: keep only digits, `.` and `-`. -/
def cleanAmount (s : String) : String :=
  String.mk (s.data.filter (fun c => charIsDigit c || c == '.' || c == '-'))

/-- Value of a digit-character list read left to right. -/
def digitsVal (cs : List Char) : Nat :=
  cs.foldl (fun a c => a * 10 + (c.toNat - 48)) 0

/-- Python `float(s)` on a string containing only digits, `.` and `-`
(the shape `re.sub(r'[^\d.-]', '', value)` can produce): an optional
leading minus, then digits with at most one decimal point and at
least one digit; anything else raises `ValueError` (`Option.none`). -/
def pyFloatCore (cs : List Char) : Option Rat :=
  let intPart := cs.takeWhile charIsDigit
  let rest := cs.dropWhile charIsDigit
  match rest with
  | [] => if intPart.isEmpty then .none else some ((digitsVal intPart : Nat) : Rat)
  | '.' :: frac =>
      if frac.all charIsDigit && !(intPart.isEmpty && frac.isEmpty) then
        some ((digitsVal intPart : Nat) + ((digitsVal frac : Nat) : Rat) / ((10 : Rat) ^ frac.length))
      else .none
  | _ => .none

/-- Python `float(s)` for cleaned amount strings. -/
def pyFloat? (s : String) : Option Rat :=
  match s.data with
  | '-' :: rest => (pyFloatCore rest).map (fun q => -q)
  | cs => pyFloatCore cs

/-- Decimal digits of a rational in `[0, 1)`, up to the given fuel
(used only to render `str(float)`; Python prints a finite repr). -/
def fracDigits : Nat → Rat → String
  | 0, _ => ""
  | n + 1, q =>
      if q == 0 then ""
      else
        let d : Int := (q * 10).floor
        let r : Rat := q * 10 - (d : Rat)
        toString d ++ fracDigits n r

/-- `str(float)` for a non-negative rational: integer part, a decimal
point, then the fractional digits (`"0"` when the value is whole). -/
def pyFloatStrNonneg (q : Rat) : String :=
  let ip : Nat := q.floor.toNat
  let fp : Rat := q - (ip : Rat)
  toString ip ++ "." ++ (if fp == 0 then "0" else fracDigits 40 fp)

/-- Python `str()` of a float. -/
def pyFloatStr (q : Rat) : String :=
  if q < 0 then "-" ++ pyFloatStrNonneg (-q) else pyFloatStrNonneg q

mutual

/-- Python `repr`, used by `str` on containers (string escaping is not
modelled; no settled claim inspects the repr of a container). -/
def pyRepr : PyVal → String
  | .none => "None"
  | .str s => "'" ++ s ++ "'"
  | .int n => toString n
  | .float q => pyFloatStr q
  | .list xs => "[" ++ pyReprList xs ++ "]"
  | .dict xs => "\x7b" ++ pyReprDict xs ++ "\x7d"

/-- Comma-separated reprs of list elements. -/
def pyReprList : List PyVal → String
  | [] => ""
  | [v] => pyRepr v
  | v :: rest => pyRepr v ++ ", " ++ pyReprList rest

/-- Comma-separated reprs of dict entries. -/
def pyReprDict : List (String × PyVal) → String
  | [] => ""
  | [(k, v)] => "'" ++ k ++ "': " ++ pyRepr v
  | (k, v) :: rest => "'" ++ k ++ "': " ++ pyRepr v ++ ", " ++ pyReprDict rest

end

/-- Python `str()`. -/
def pyStr : PyVal → String
  | .str s => s
  | v => pyRepr v

mutual

/-- Python `==` on values.  Dict comparison is modelled up to entry
order (Python dicts compare order-insensitively; the difference does
not affect any settled claim, which only exercise this on
structurally identical values). -/
def pyEq : PyVal → PyVal → Bool
  | .none, .none => true
  | .str a, .str b => a == b
  | .int a, .int b => a == b
  | .float a, .float b => a == b
  | .int a, .float b => (a : Rat) == b
  | .float a, .int b => a == (b : Rat)
  | .list xs, .list ys => pyEqList xs ys
  | .dict xs, .dict ys => pyEqDict xs ys
  | _, _ => false

/-- Elementwise `==` on lists. -/
def pyEqList : List PyVal → List PyVal → Bool
  | [], [] => true
  | x :: xs, y :: ys => pyEq x y && pyEqList xs ys
  | _, _ => false

/-- Entrywise `==` on dict entries. -/
def pyEqDict : List (String × PyVal) → List (String × PyVal) → Bool
  | [], [] => true
  | (k, v) :: xs, (k', v') :: ys => k == k' && pyEq v v' && pyEqDict xs ys
  | _, _ => false

end

/-! ### Field coercion (`_extract_amount`, `_extract_date`, year and
status helpers of `TaxDataNormalizer`) -/

/-- First loop of `_extract_amount`: walk the candidate keys; a string
value is cleaned and parsed (a `ValueError` is caught and the loop
continues), an `int`/`float` value is returned directly, anything
else falls through to the next key. -/
def extractAmountFirst (xs : PyDict) : List String → Option Rat
  | [] => .none
  | k :: ks =>
      match dlookup xs k with
      | .none => extractAmountFirst xs ks
      | some .none => extractAmountFirst xs ks
      | some (.str s) =>
          let cleaned := cleanAmount s
          if !(cleaned == "") then
            match pyFloat? cleaned with
            | some q => some q
            | .none => extractAmountFirst xs ks
          else extractAmountFirst xs ks
      | some (.int n) => some ((n : Int) : Rat)
      | some (.float q) => some q
      | some _ => extractAmountFirst xs ks

/-- Fallback loop of `_extract_amount`: scan all string values that
contain `$` or a digit and accept the first whose cleaned form is
non-empty and contains a decimal point. -/
def amountScan : List (String × PyVal) → Option Rat
  | [] => .none
  | (_, v) :: rest =>
      match v with
      | .str s =>
          if strContains s "$" || s.data.any charIsDigit then
            let cleaned := cleanAmount s
            if !(cleaned == "") && strContains cleaned "." then
              match pyFloat? cleaned with
              | some q => some q
              | .none => amountScan rest
            else amountScan rest
          else amountScan rest
      | _ => amountScan rest

/-- `_extract_amount` on the entries of a dictionary. -/
def extractAmount (xs : PyDict) (keys : List String) : Option Rat :=
  match extractAmountFirst xs keys with
  | some q => some q
  | .none => amountScan xs

/-- Column-zero-padded two-digit rendering. -/
def pad2 (n : Nat) : String :=
  if n < 10 then "0" ++ toString n else toString n

/-- Zero-padded four-digit rendering. -/
def pad4 (n : Nat) : String :=
  if n < 10 then "000" ++ toString n
  else if n < 100 then "00" ++ toString n
  else if n < 1000 then "0" ++ toString n
  else toString n

/-- ISO-8601 timestamp for a parsed date. -/
def isoOf (y m d : Nat) : String :=
  pad4 y ++ "-" ++ pad2 m ++ "-" ++ pad2 d ++ "T00:00:00"

/-- `%Y` component: four digits. -/
def isYear4 (s : String) : Bool := strIsDigit s && s.length == 4

/-- `%m` component: one or two digits in `[1, 12]`. -/
def monthOk (s : String) : Bool :=
  strIsDigit s && s.length ≤ 2 && 1 ≤ natOfDigits s && natOfDigits s ≤ 12

/-- `%d` component: one or two digits in `[1, 31]` (per-month day
limits of `strptime` are not modelled; no settled claim parses a
date). -/
def dayOk (s : String) : Bool :=
  strIsDigit s && s.length ≤ 2 && 1 ≤ natOfDigits s && natOfDigits s ≤ 31

/-- `strptime` with a year-month-day pattern. -/
def tryFormatYMD (s sep : String) : Option String :=
  match s.splitOn sep with
  | [y, m, d] =>
      if isYear4 y && monthOk m && dayOk d then
        some (isoOf (natOfDigits y) (natOfDigits m) (natOfDigits d))
      else .none
  | _ => .none

/-- `strptime` with a month-day-year pattern. -/
def tryFormatMDY (s sep : String) : Option String :=
  match s.splitOn sep with
  | [m, d, y] =>
      if isYear4 y && monthOk m && dayOk d then
        some (isoOf (natOfDigits y) (natOfDigits m) (natOfDigits d))
      else .none
  | _ => .none

/-- The fixed format list `['%Y-%m-%d', '%m/%d/%Y', '%m-%d-%Y',
'%Y/%m/%d']`, first success wins. -/
def tryDateFormats (s : String) : Option String :=
  match tryFormatYMD s "-" with
  | some r => some r
  | .none =>
      match tryFormatMDY s "/" with
      | some r => some r
      | .none =>
          match tryFormatMDY s "-" with
          | some r => some r
          | .none => tryFormatYMD s "/"

/-- `_extract_date`: first truthy value among the candidate keys; a
string is run through the date formats (falling back to the string
itself), any other truthy value is returned as `str(value)`. -/
def extractDate (xs : PyDict) : List String → Option String
  | [] => .none
  | k :: ks =>
      match dlookup xs k with
      | some v =>
          if pyTruthy v then
            match v with
            | .str s =>
                match tryDateFormats s with
                | some iso => some iso
                | .none => some s
            | _ => some (pyStr v)
          else extractDate xs ks
      | .none => extractDate xs ks

/-- `_parse_amount_from_string`. -/
def parseAmountFromString (v : PyVal) : Option Rat :=
  if !pyTruthy v then .none
  else
    let cleaned := cleanAmount (pyStr v)
    if !(cleaned == "") then pyFloat? cleaned else .none

/-- `_parse_date_from_string`. -/
def parseDateFromString (v : PyVal) : Option String :=
  if !pyTruthy v then .none
  else
    match tryDateFormats (pyStrip (pyStr v)) with
    | some iso => some iso
    | .none => some (pyStr v)

/-! ### Year extraction (`_extract_year_from_data`) -/

/-- The year-named fields probed by `_extract_year_from_data`. -/
def yearFields : List String :=
  ["year", "taxYear", "tax_year", "Year", "TAX_YEAR", "TaxYear", "tax-year"]

/-- Explicit-field branch: a truthy field whose `str(...).strip()` is a
4-digit number in `[1900, 2100]` is returned; otherwise the next
field is tried. -/
def yearFieldScan (xs : PyDict) : List String → Option String
  | [] => .none
  | f :: fs =>
      match dlookup xs f with
      | some v =>
          if pyTruthy v then
            if strIsDigit (pyStrip (pyStr v)) && (pyStrip (pyStr v)).length == 4 then
              if 1900 ≤ natOfDigits (pyStrip (pyStr v)) ∧ natOfDigits (pyStrip (pyStr v)) ≤ 2100 then
                some (pyStrip (pyStr v))
              else yearFieldScan xs fs
            else yearFieldScan xs fs
          else yearFieldScan xs fs
      | .none => yearFieldScan xs fs

/-- Regex word character (`\w`). -/
def isWordChar (c : Char) : Bool :=
  c.isAlphanum || c == '_'

/-- Word boundary against an optional neighbouring character. -/
def boundaryOk : Option Char → Bool
  | .none => true
  | some c => !isWordChar c

/-- One attempted match of `\b(19|20)\d{2}\b` at the head of the
character list, `prev` being the character before it. -/
def checkYearHere (prev : Option Char) (cs : List Char) : Option String :=
  match cs with
  | c1 :: c2 :: c3 :: c4 :: rest =>
      if boundaryOk prev
          && ((c1 == '1' && c2 == '9') || (c1 == '2' && c2 == '0'))
          && charIsDigit c3 && charIsDigit c4
          && (match rest with | [] => true | r :: _ => !isWordChar r)
      then some (String.mk [c1, c2, c3, c4])
      else .none
  | _ => .none

/-- `re.search(r'\b(19|20)\d{2}\b', s)`: leftmost match. -/
def scanYear : Option Char → List Char → Option String
  | _, [] => .none
  | prev, c :: rest =>
      match checkYearHere prev (c :: rest) with
      | some y => some y
      | .none => scanYear (some c) rest

/-- First 4-digit year-looking substring of a string. -/
def findYearMatch (s : String) : Option String :=
  scanYear .none s.data

/-- String-value branch of `_extract_year_from_data`: scan the values
in order; on a regex match, return it if in range, else move to the
next value. -/
def stringValueScan : List (String × PyVal) → Option String
  | [] => .none
  | (_, v) :: rest =>
      match v with
      | .str s =>
          match findYearMatch s with
          | some y =>
              if 1900 ≤ natOfDigits y ∧ natOfDigits y ≤ 2100 then some y
              else stringValueScan rest
          | .none => stringValueScan rest
      | _ => stringValueScan rest

/-- `_extract_year_from_data`: `None` on non-dicts; otherwise the
explicit-field branch, then the string-value regex branch. -/
def extractYearFromData : PyVal → Option String
  | .dict xs =>
      match yearFieldScan xs yearFields with
      | some y => some y
      | .none => stringValueScan xs
  | _ => .none

/-! ### Status and type helpers -/

/-- `_determine_status`. -/
def determineStatus (xs : PyDict) : String :=
  let statusLower := strLower (pyStr (dget xs "status" (.str "")))
  if strContains statusLower "delinquent" || strContains statusLower "unpaid" then "delinquent"
  else if strContains statusLower "paid" then "paid"
  else "current"

/-- `_determine_installment_type`. -/
def determineInstallmentType (xs : PyDict) (installmentNum : Nat) : String :=
  let typeStr := strLower (pyStr (dget xs "type" (.str "")))
  if strContains typeStr "first" || strContains typeStr "1st" || installmentNum == 1 then
    "1st_half"
  else if strContains typeStr "second" || strContains typeStr "2nd" || installmentNum == 2 then
    "2nd_half"
  else "installment_" ++ toString installmentNum

/-- `_determine_installment_status` (note the source checks `'paid'`
before `'unpaid'`, so a status text containing `unpaid` resolves to
`paid`). -/
def determineInstallmentStatus (xs : PyDict) : String :=
  let statusLower := strLower (pyStr (dget xs "status" (.str "")))
  if strContains statusLower "paid" then "paid"
  else if strContains statusLower "delinquent" || strContains statusLower "unpaid" then "delinquent"
  else "pending"

/-- `_extract_delinquent_installments`: first present field among the
candidates, stringified (membership, not truthiness). -/
def extractDelinquentInstallments (xs : PyDict) : String :=
  if dcontains xs "installments" then pyStr (dget xs "installments" .none)
  else if dcontains xs "installment" then pyStr (dget xs "installment" .none)
  else if dcontains xs "delinquent_installments" then pyStr (dget xs "delinquent_installments" .none)
  else ""

/-! ### Owner name and address (`_extract_owner_name`, `_extract_address`) -/

/-- The name fields probed in priority order. -/
def nameFields : List String :=
  ["ConcatenatedName", "concatenatedName", "OwnerName", "ownerName",
   "FirstName", "LastName", "FullName", "fullName"]

/-- First truthy name field, stripped. -/
def ownerNameFieldScan (xs : PyDict) : List String → Option String
  | [] => .none
  | f :: fs =>
      match dlookup xs f with
      | some v =>
          if pyTruthy v then some (pyStrip (pyStr v)) else ownerNameFieldScan xs fs
      | .none => ownerNameFieldScan xs fs

/-- `_extract_owner_name`. -/
def extractOwnerName (xs : PyDict) : String :=
  match ownerNameFieldScan xs nameFields with
  | some s => s
  | .none =>
      let firstName := pyOrV (dget xs "FirstName" .none) (pyOrV (dget xs "firstName" .none) (.str ""))
      let lastName := pyOrV (dget xs "LastName" .none) (pyOrV (dget xs "lastName" .none) (.str ""))
      if pyTruthy firstName || pyTruthy lastName then
        pyStrip (pyStr firstName ++ " " ++ pyStr lastName)
      else ""

/-- `_extract_address`. -/
def extractAddress (xs : PyDict) : String :=
  let houseNumber := pyOrV (dget xs "PropertyAddress_HouseNumber" .none) (pyOrV (dget xs "houseNumber" .none) (.str ""))
  let streetName := pyOrV (dget xs "PropertyAddress_StreetName" .none) (pyOrV (dget xs "streetName" .none) (.str ""))
  let streetType := pyOrV (dget xs "PropertyAddress_StreetType" .none) (pyOrV (dget xs "streetType" .none) (.str ""))
  let suffixDir := pyOrV (dget xs "PropertyAddress_SuffixDirection" .none) (pyOrV (dget xs "suffixDirection" .none) (.str ""))
  let unitType := pyOrV (dget xs "PropertyAddress_UnitType" .none) (pyOrV (dget xs "unitType" .none) (.str ""))
  let unitNumber := pyOrV (dget xs "PropertyAddress_UnitNumber" .none) (pyOrV (dget xs "unitNumber" .none) (.str ""))
  let parts : List String :=
    (if pyTruthy houseNumber then [pyStr houseNumber] else [])
    ++ (if pyTruthy streetName then [pyStr streetName] else [])
    ++ (if pyTruthy streetType then [pyStr streetType] else [])
    ++ (if pyTruthy suffixDir then [pyStr suffixDir] else [])
    ++ (if pyTruthy unitType && pyTruthy unitNumber then [pyStr unitType ++ " " ++ pyStr unitNumber]
        else if pyTruthy unitNumber then ["Unit " ++ pyStr unitNumber]
        else [])
  String.intercalate ", " parts

/-! ### Canonical rows

One structure per canonical table; fields that Python stores as raw
payload values (`parcel_id`, the municipality `or`-chain, table-cell
installment types) are kept as `PyVal`. -/

/-- A `properties` row (`_extract_property_info` result dict). -/
structure PropertyRow where
  parcel_id : PyVal
  property_id : Option String
  owner_name : Option String
  municipality : PyVal
  address : Option String
  extraction_date : String
  source : String
deriving Repr

/-- A `tax_periods` row. -/
structure TaxPeriodRow where
  parcel_id : PyVal
  property_id : Option String
  tax_year : String
  total_tax_amount : Option Rat
  status : String
  extraction_date : String
deriving Repr

/-- An `installments` row. -/
structure InstallmentRow where
  parcel_id : PyVal
  property_id : Option String
  installment_number : Nat
  installment_type : PyVal
  amount : Option Rat
  due_date : Option String
  paid_date : Option String
  status : String
  tax_year : Option String
  extraction_date : String
deriving Repr

/-- A `delinquent_taxes` row. -/
structure DelinquentRow where
  parcel_id : PyVal
  property_id : Option String
  tax_year : Option String
  delinquent_amount : Rat
  status : String
  installments_delinquent : String
  extraction_date : String
deriving Repr

/-- A `penalties_interest` row. -/
structure PenaltyRow where
  parcel_id : PyVal
  property_id : Option String
  tax_year : Option String
  penalty_amount : Rat
  interest_amount : Rat
  total_penalties_interest : Rat
  extraction_date : String
deriving Repr

/-- `property_info.get('property_id') if property_info else None`. -/
def pinfoPropertyId : Option PropertyRow → Option String
  | some r => r.property_id
  | .none => .none

/-! ### Property extraction (`_extract_property_info`) -/

/-- The scan of `search_data['data']` for an entry whose user-defined
id matches the parcel id (lines 80–93): a dict-shaped result list is
converted to its values, iteration over a non-iterable raises. -/
def findMatchIn (pid : PyVal) : List PyVal → Option PyDict
  | [] => .none
  | r :: rest =>
      match r with
      | .dict d =>
          let udid := pyOrV (dget d "UserDefinedId" .none) (dget d "userDefinedId" .none)
          if pyTruthy udid && (pyStrip (pyStr udid) == pyStrip (pyStr pid)) then some d
          else findMatchIn pid rest
      | _ => findMatchIn pid rest

/-- Locate the matching search-result entry, if any. -/
def searchFindMatch (pid search : PyVal) : Except String (Option PyDict) :=
  match search with
  | .dict sxs =>
      if dcontains sxs "data" then do
        let rl := dget sxs "data" (.list [])
        let rl2 := match rl with
          | .dict dd => PyVal.list (dd.map (fun kv => kv.2))
          | v => v
        let items ← pyIter rl2
        pure (findMatchIn pid items)
      else pure .none
  | _ => pure .none

/-- `_extract_property_info`: build the base info dict, fill it from a
matching search entry, fall back to `tax_data['property_id']`, and
return it only if a property id or an owner name is truthy. -/
def extractPropertyInfo (pid search tax : PyVal) (now : String) :
    Except String (Option PropertyRow) := do
  let m ← searchFindMatch pid search
  let base : PropertyRow :=
    { parcel_id := pid, property_id := .none, owner_name := .none,
      municipality := PyVal.none, address := .none,
      extraction_date := now, source := "lacrosse_county" }
  let info :=
    match m with
    | some d =>
        { base with
          property_id := some (pyStr (pyOrV (dget d "PropertyId" .none)
            (pyOrV (dget d "propertyId" .none) (.str "")))),
          owner_name := some (extractOwnerName d),
          municipality := pyOrV (dget d "MunicipalityDescription" .none)
            (pyOrV (dget d "municipalityDescription" .none) (.str "")),
          address := some (extractAddress d) }
    | .none => base
  let info2 :=
    if !optStrTruthy info.property_id then
      match tax with
      | .dict txs =>
          { info with property_id := some (pyStr (pyOrV (dget txs "property_id" .none) (.str ""))) }
      | _ => info
    else info
  pure (if optStrTruthy info2.property_id || optStrTruthy info2.owner_name then some info2 else .none)

/-! ### Tax periods (`_extract_tax_periods`) -/

/-- Loop body of `_extract_tax_periods`: year-looking keys produce one
row each; building the row calls `_extract_amount`/`_determine_status`
on the year value, which raises on a non-dict. -/
def taxPeriodLoop (pid : PyVal) (pinfoId : Option String) (now : String) :
    List (String × PyVal) → Except String (List TaxPeriodRow)
  | [] => pure []
  | (k, v) :: rest => do
      let here ←
        if strIsDigit k || k == "current" then
          let year : Option String := if strIsDigit k then some k else extractYearFromData v
          if optStrTruthy year then do
            let d ← asDict v
            pure [({ parcel_id := pid, property_id := pinfoId,
                     tax_year := year.getD "",
                     total_tax_amount := extractAmount d ["total", "amount", "totalTax", "total_tax"],
                     status := determineStatus d, extraction_date := now } : TaxPeriodRow)]
          else pure []
        else pure []
      let others ← taxPeriodLoop pid pinfoId now rest
      pure (here ++ others)

/-- `_extract_tax_periods`. -/
def extractTaxPeriods (pid : PyVal) (pinfo : Option PropertyRow) (tax : PyVal) (now : String) :
    Except String (List TaxPeriodRow) :=
  match tax with
  | .dict xs => taxPeriodLoop pid (pinfoPropertyId pinfo) now xs
  | _ => pure []

/-! ### Shared aliasing/extend pattern

`xs = d.get(key, [])` followed by
`xs.extend(d['page_extracted'].get(key, []))` (and the `api_extracted`
analogue) appears four times in the source.  When the key is present
the local name aliases the stored list, so the extends mutate the
dictionary in place; the model returns the updated dictionary. -/

/-- `list.extend`: the receiver must be a list, the argument any
iterable. -/
def pyExtend (base ext : PyVal) : Except String PyVal :=
  match base with
  | .list l => do
      let es ← pyIter ext
      pure (PyVal.list (l ++ es))
  | _ => .error "AttributeError"

/-- The get-then-extend pattern, returning the combined value and the
(possibly mutated) dictionary. -/
def mergedListWithExtends (d : PyDict) (key : String) : Except String (PyVal × PyDict) := do
  let aliased := dcontains d key
  let v0 := dget d key (PyVal.list [])
  let hasP := dcontains d "page_extracted"
  let hasA := dcontains d "api_extracted"
  let v1 ← if hasP then do
      let p ← asDict (dget d "page_extracted" PyVal.none)
      pyExtend v0 (dget p key (PyVal.list []))
    else pure v0
  let v2 ← if hasA then do
      let a ← asDict (dget d "api_extracted" PyVal.none)
      pyExtend v1 (dget a key (PyVal.list []))
    else pure v1
  let d' := if aliased && (hasP || hasA) then dset d key v2 else d
  pure (v2, d')

/-! ### Installments (`_extract_installments`, `_parse_table_for_installments`) -/

/-- Build one installment row from a dict-shaped entry. -/
def mkInstRow (pid : PyVal) (pinfoId : Option String) (now : String)
    (d : PyDict) (num : Nat) (year : Option String) : InstallmentRow :=
  { parcel_id := pid, property_id := pinfoId,
    installment_number := num,
    installment_type := .str (determineInstallmentType d num),
    amount := extractAmount d ["amount", "total", "installmentAmount", "due"],
    due_date := extractDate d ["dueDate", "due_date", "date", "due"],
    paid_date := extractDate d ["paidDate", "paid_date", "paid"],
    status := determineInstallmentStatus d,
    tax_year := year, extraction_date := now }

/-- Numbered iteration over an installment list: only dict entries
produce rows and advance the counter; the year is the entry's own
year when truthy, else the supplied grouping year. -/
def instRowsFromList (pid : PyVal) (pinfoId : Option String) (now : String)
    (taxYear : Option String) : List PyVal → Nat → List InstallmentRow
  | [], _ => []
  | i :: rest, num =>
      match i with
      | .dict d =>
          let ly := extractYearFromData (.dict d)
          let instYear := if optStrTruthy ly then ly else taxYear
          mkInstRow pid pinfoId now d num instYear
            :: instRowsFromList pid pinfoId now taxYear rest (num + 1)
      | _ => instRowsFromList pid pinfoId now taxYear rest num

/-- Year-keyed part of `_extract_installments`: each digit/`current`
key gets its own counter restarting at 1; the per-year
get-then-extend pattern may mutate the year's dictionary. -/
def instYearLoop (pid : PyVal) (pinfoId : Option String) (now : String) :
    List (String × PyVal) → Except String (List InstallmentRow × List (String × PyVal))
  | [] => pure ([], [])
  | (k, v) :: rest =>
      if strIsDigit k || k == "current" then
        match v with
        | .dict ys => do
            let taxYear : Option String := if strIsDigit k then some k else .none
            let (instsVal, ys') ← mergedListWithExtends ys "installments"
            let insts ← pyIter instsVal
            let rows := instRowsFromList pid pinfoId now taxYear insts 1
            let (rowsRest, rest') ← instYearLoop pid pinfoId now rest
            pure (rows ++ rowsRest, (k, PyVal.dict ys') :: rest')
        | _ => do
            let (rowsRest, rest') ← instYearLoop pid pinfoId now rest
            pure (rowsRest, (k, v) :: rest')
      else do
        let (rowsRest, rest') ← instYearLoop pid pinfoId now rest
        pure (rowsRest, (k, v) :: rest')

/-- Last header index satisfying a predicate (each match in the
source's scan overwrites the previous assignment). -/
def lastMatchIdx (headers : List String) (p : String → Bool) : Option Nat :=
  headers.enum.foldl (fun acc ih => if p ih.2 then some ih.1 else acc) .none

/-- `if idx and idx < len(row)`: a column index of 0 is falsy and thus
never used. -/
def optIdxUsable (idx : Option Nat) (len : Nat) : Bool :=
  match idx with
  | some i => !(i == 0) && i < len
  | .none => false

/-- Python indexing `v[i]` for sized values (a dict indexed by an
integer raises; the model reports it as a `TypeError`). -/
def pyIndexE (v : PyVal) (i : Nat) : Except String PyVal :=
  match v with
  | .list xs =>
      match xs.get? i with
      | some x => .ok x
      | .none => .error "IndexError"
  | .str s =>
      match s.data.get? i with
      | some c => .ok (.str c.toString)
      | .none => .error "IndexError"
  | _ => .error "TypeError"

/-- `_extract_year_from_tax_data_context`: membership of the record in
one of the list-valued fields of a digit-keyed year entry. -/
def contextListCheck (data : PyVal) (ys : PyDict) (listKey : String) : Bool :=
  if dcontains ys listKey then
    let items := match dget ys listKey PyVal.none with
      | .list l => l
      | _ => []
    items.any (fun it => pyEq data it)
  else false

/-- Walk the year-keyed entries looking for the record. -/
def extractYearFromTaxDataContext (data : PyVal) : PyDict → Option String
  | [] => .none
  | (k, v) :: rest =>
      if strIsDigit k then
        match v with
        | .dict ys =>
            if contextListCheck data ys "unpaid_taxes" || contextListCheck data ys "installments"
                || contextListCheck data ys "tax_tables" then some k
            else extractYearFromTaxDataContext data rest
        | _ => extractYearFromTaxDataContext data rest
      else extractYearFromTaxDataContext data rest

/-- Data rows of `_parse_table_for_installments` (1-based row index
counts every row, rows of length 0 produce nothing). -/
def tableRowsLoop (pid : PyVal) (pinfoId : Option String) (taxCtx : Option PyDict) (now : String)
    (amountIdx dateIdx typeIdx yearIdx statusIdx : Option Nat) :
    List PyVal → Nat → Except String (List InstallmentRow)
  | [], _ => pure []
  | row :: rest, rowIdx => do
      let rlen ← pyLenE row
      let here ← if rlen > 0 then do
          let ty1 ← if optIdxUsable yearIdx rlen then do
              let cell ← pyIndexE row (yearIdx.getD 0)
              if pyTruthy cell then
                match cell with
                | .str s => pure (some (pyStrip s))
                | _ => Except.error "AttributeError"
              else pure (Option.none)
            else pure (Option.none)
          let ty2 : Option String := match ty1 with
            | some t => if !(t == "") && !(strIsDigit t && t.length == 4) then .none else some t
            | .none => .none
          let taxTruthy := match taxCtx with
            | some xs => !xs.isEmpty
            | .none => false
          let ty3 : Option String :=
            if !optStrTruthy ty2 && taxTruthy then
              extractYearFromTaxDataContext (PyVal.dict [("table_row", row)]) (taxCtx.getD [])
            else ty2
          let status ← if optIdxUsable statusIdx rlen then do
              let cell ← pyIndexE row (statusIdx.getD 0)
              let s := strLower (pyStr cell)
              pure (if strContains s "paid" then "paid"
                else if strContains s "delinquent" || strContains s "unpaid" then "delinquent"
                else "pending")
            else pure "pending"
          let amountCell ← if optIdxUsable amountIdx rlen then pyIndexE row (amountIdx.getD 0)
            else pure (PyVal.str "")
          let typeVal ← if optIdxUsable typeIdx rlen then pyIndexE row (typeIdx.getD 0)
            else pure (PyVal.str ("installment_" ++ toString rowIdx))
          let dateCell ← if optIdxUsable dateIdx rlen then pyIndexE row (dateIdx.getD 0)
            else pure (PyVal.str "")
          pure [({ parcel_id := pid, property_id := pinfoId, installment_number := rowIdx,
                   installment_type := typeVal, amount := parseAmountFromString amountCell,
                   due_date := parseDateFromString dateCell, paid_date := .none,
                   status := status, tax_year := ty3, extraction_date := now } : InstallmentRow)]
        else pure []
      let others ← tableRowsLoop pid pinfoId taxCtx now amountIdx dateIdx typeIdx yearIdx statusIdx rest (rowIdx + 1)
      pure (here ++ others)

/-- `_parse_table_for_installments`. -/
def parseTableForInstallments (table pid : PyVal) (pinfoId : Option String)
    (taxCtx : Option PyDict) (now : String) : Except String (List InstallmentRow) := do
  if !pyTruthy table then pure []
  else do
    let len ← pyLenE table
    if len < 2 then pure []
    else do
      let elems ← pyIter table
      match elems with
      | [] => pure []
      | hdr :: body => do
          let hcells ← pyIter hdr
          let headers ← hcells.mapM (fun h =>
            match h with
            | PyVal.str s => Except.ok (strLower s)
            | _ => Except.error "AttributeError")
          let amountIdx := lastMatchIdx headers
            (fun h => strContains h "amount" || strContains h "total" || strContains h "$")
          let dateIdx := lastMatchIdx headers (fun h => strContains h "date" || strContains h "due")
          let typeIdx := lastMatchIdx headers (fun h => strContains h "type" || strContains h "installment")
          let yearIdx := lastMatchIdx headers (fun h => strContains h "year")
          let statusIdx := lastMatchIdx headers
            (fun h => strContains h "status" || strContains h "paid" || strContains h "delinquent")
          tableRowsLoop pid pinfoId taxCtx now amountIdx dateIdx typeIdx yearIdx statusIdx body 1

/-- `_extract_installments`: year-keyed groups first, then the
top-level list (processed only when no digit key exists, but its
extends run — and mutate — regardless), then `tax_tables`. -/
def extractInstallments (pid : PyVal) (pinfo : Option PropertyRow) (tax : PyVal) (now : String) :
    Except String (List InstallmentRow × PyVal) :=
  match tax with
  | .dict xs => do
      let pinfoId := pinfoPropertyId pinfo
      let (rows1, xs1) ← instYearLoop pid pinfoId now xs
      let (instsVal, xs2) ← mergedListWithExtends xs1 "installments"
      let rows2 ← if !(xs2.any (fun kv => strIsDigit kv.1)) then do
          let insts ← pyIter instsVal
          pure (instRowsFromList pid pinfoId now .none insts 1)
        else pure []
      let rows3 ← if dcontains xs2 "page_extracted" then do
          let p ← asDict (dget xs2 "page_extracted" PyVal.none)
          if dcontains p "tax_tables" then do
            let tables ← pyIter (dget p "tax_tables" PyVal.none)
            let tableRows ← tables.mapM (fun t => parseTableForInstallments t pid pinfoId (some xs2) now)
            pure tableRows.flatten
          else pure []
        else pure []
      pure (rows1 ++ rows2 ++ rows3, PyVal.dict xs2)
  | _ => pure ([], tax)

/-! ### Delinquent taxes (`_extract_delinquent_taxes`) -/

/-- Phase (a): explicit unpaid entries with a positive extracted
amount; the year comes from the entry itself, else from its position
inside the year-keyed parent. -/
def delinqExplicitRows (pid : PyVal) (pinfoId : Option String) (now : String)
    (taxCtx : PyDict) : List PyVal → List DelinquentRow
  | [] => []
  | u :: rest =>
      match u with
      | .dict d =>
          match extractAmount d ["amount", "balance", "delinquent", "unpaid", "owed", "remaining", "outstanding"] with
          | some a =>
              if !(a == 0) && a > 0 then
                let y0 := extractYearFromData (.dict d)
                let y := if !optStrTruthy y0 then extractYearFromTaxDataContext (.dict d) taxCtx else y0
                { parcel_id := pid, property_id := pinfoId, tax_year := y,
                  delinquent_amount := a, status := "delinquent",
                  installments_delinquent := extractDelinquentInstallments d,
                  extraction_date := now } :: delinqExplicitRows pid pinfoId now taxCtx rest
              else delinqExplicitRows pid pinfoId now taxCtx rest
          | .none => delinqExplicitRows pid pinfoId now taxCtx rest
      | _ => delinqExplicitRows pid pinfoId now taxCtx rest

/-- Insert one qualifying installment into the per-year accumulator
(`installments_by_year`): first occurrence appends a fresh group,
later ones add to the total and the member list. -/
def addToGroup (acc : List (String × Rat × List PyVal)) (y : String) (a : Rat) (inst : PyVal) :
    List (String × Rat × List PyVal) :=
  if acc.any (fun g => g.1 == y) then
    acc.map (fun g => if g.1 == y then (g.1, g.2.1 + a, g.2.2 ++ [inst]) else g)
  else acc ++ [(y, 0 + a, [inst])]

/-- Group the installment list by year, keeping only dict entries with
a truthy year, delinquent/unpaid resolved status and positive amount. -/
def groupDelinqInstallments : List PyVal → List (String × Rat × List PyVal) → List (String × Rat × List PyVal)
  | [], acc => acc
  | i :: rest, acc =>
      match i with
      | .dict d =>
          match extractYearFromData (.dict d),
              extractAmount d ["amount", "balance", "unpaid", "owed", "remaining"] with
          | some yv, some a =>
              let status := determineInstallmentStatus d
              if optStrTruthy (some yv) && (status == "delinquent" || status == "unpaid")
                  && !(a == 0) && a > 0 then
                groupDelinqInstallments rest (addToGroup acc yv a (.dict d))
              else groupDelinqInstallments rest acc
          | _, _ => groupDelinqInstallments rest acc
      | _ => groupDelinqInstallments rest acc

/-- `', '.join(str(i.get('installment_number', '')) for i in insts)`. -/
def instNumsJoin (insts : List PyVal) : String :=
  String.intercalate ", " (insts.map (fun i =>
    match i with
    | .dict d => pyStr (dget d "installment_number" (.str ""))
    | _ => ""))

/-- Phase (b): emit one derived row per group unless a row for that
year is already present (the check runs against the list as built so
far, so it also deduplicates against earlier derived rows). -/
def delinqDerivedRows (pid : PyVal) (pinfoId : Option String) (now : String) :
    List DelinquentRow → List (String × Rat × List PyVal) → List DelinquentRow
  | cur, [] => cur
  | cur, (y, tot, insts) :: rest =>
      if tot > 0 then
        if cur.any (fun d => d.tax_year == some y) then
          delinqDerivedRows pid pinfoId now cur rest
        else
          delinqDerivedRows pid pinfoId now
            (cur ++ [{ parcel_id := pid, property_id := pinfoId, tax_year := some y,
                       delinquent_amount := tot, status := "delinquent",
                       installments_delinquent := instNumsJoin insts,
                       extraction_date := now }]) rest
      else delinqDerivedRows pid pinfoId now cur rest

/-- `_extract_delinquent_taxes`: explicit entries first (with the
unpaid-list extend pattern), then the grouped installments (whose
extend pattern mutates `installments` a second time when nested
sub-bundles are present). -/
def extractDelinquentTaxes (pid : PyVal) (pinfo : Option PropertyRow) (tax : PyVal) (now : String) :
    Except String (List DelinquentRow × PyVal) :=
  match tax with
  | .dict xs => do
      let pinfoId := pinfoPropertyId pinfo
      let (unpaidVal, xs1) ← mergedListWithExtends xs "unpaid_taxes"
      let unpaids ← pyIter unpaidVal
      let explicitRows := delinqExplicitRows pid pinfoId now xs1 unpaids
      let (instsVal, xs2) ← mergedListWithExtends xs1 "installments"
      let insts ← pyIter instsVal
      let groups := groupDelinqInstallments insts []
      pure (delinqDerivedRows pid pinfoId now explicitRows groups, PyVal.dict xs2)
  | _ => pure ([], tax)

/-! ### Penalties and interest (`_extract_penalties_interest`) -/

/-- `x or 0.0` on an optional float. -/
def ratOrZero : Option Rat → Rat
  | some a => if !(a == 0) then a else 0
  | .none => 0

/-- `_extract_penalties_interest`: at most one row per bundle, emitted
only when penalty or interest is truthy. -/
def extractPenaltiesInterest (pid : PyVal) (pinfo : Option PropertyRow) (tax : PyVal) (now : String) :
    List PenaltyRow :=
  match tax with
  | .dict xs =>
      let p := extractAmount xs ["penalty", "penalties", "penaltyAmount"]
      let i := extractAmount xs ["interest", "interestAmount"]
      if optRatTruthy p || optRatTruthy i then
        [{ parcel_id := pid, property_id := pinfoPropertyId pinfo,
           tax_year := extractYearFromData (.dict xs),
           penalty_amount := ratOrZero p, interest_amount := ratOrZero i,
           total_penalties_interest := ratOrZero p + ratOrZero i,
           extraction_date := now }]
      else []
  | _ => []

/-! ### The normalizer pipeline (`normalize_scraped_data`) -/

/-- The five accumulated row lists of a `TaxDataNormalizer` instance.
The DataFrames returned by `normalize_scraped_data` hold exactly
these lists, so the returned tables are modelled by this structure. -/
structure NormState where
  properties : List PropertyRow
  tax_periods : List TaxPeriodRow
  installments : List InstallmentRow
  delinquent_taxes : List DelinquentRow
  penalties_interest : List PenaltyRow
deriving Repr

/-- The freshly constructed normalizer (`__init__`). -/
def initState : NormState := ⟨[], [], [], [], []⟩

/-- Fieldwise append of row lists. -/
def appendState (s t : NormState) : NormState :=
  ⟨s.properties ++ t.properties, s.tax_periods ++ t.tax_periods,
   s.installments ++ t.installments, s.delinquent_taxes ++ t.delinquent_taxes,
   s.penalties_interest ++ t.penalties_interest⟩

/-- One iteration of the bundle loop: the rows the bundle contributes,
plus the bundle as it is left after the in-place mutations of
`tax_data` (visible only when the `tax_data` key is present, since a
missing key yields a fresh default dict). -/
def processBundle (result : PyVal) (now : String) : Except String (NormState × PyVal) := do
  let rxs ← asDict result
  let pid := dget rxs "parcel_id" PyVal.none
  let search := dget rxs "search_data" (PyVal.dict [])
  let tax := dget rxs "tax_data" (PyVal.dict [])
  let pinfo ← extractPropertyInfo pid search tax now
  let props := match pinfo with
    | some r => [r]
    | .none => []
  if pyTruthy tax then do
    let periods ← extractTaxPeriods pid pinfo tax now
    let (instRows, tax1) ← extractInstallments pid pinfo tax now
    let (delRows, tax2) ← extractDelinquentTaxes pid pinfo tax1 now
    let pens := extractPenaltiesInterest pid pinfo tax2 now
    let result' := if dcontains rxs "tax_data" then PyVal.dict (dset rxs "tax_data" tax2)
      else PyVal.dict rxs
    pure (⟨props, periods, instRows, delRows, pens⟩, result')
  else
    pure (⟨props, [], [], [], []⟩, PyVal.dict rxs)

/-- `normalize_scraped_data`: fold the bundle loop over the input,
appending each bundle's rows to the instance state; the second
component is the input list as left after the call (for the
read-only-input claim). -/
def normalizeScrapedData : NormState → List PyVal → String → Except String (NormState × List PyVal)
  | st, [], _ => pure (st, [])
  | st, r :: rest, now => do
      let (rows, r') ← processBundle r now
      let (st', rest') ← normalizeScrapedData (appendState st rows) rest now
      pure (st', r' :: rest')

/-! ### ASP.NET token handling (`src/scraper.py`)

An HTML response is modelled by its sequence of hidden input fields in
document order; `extract_hidden_field`'s three regex patterns reduce,
on this model, to: first field with the requested name and a non-empty
value, else an empty string if the name occurs at all, else absent.
The driver's token set is a string-keyed dictionary with Python
`dict.update` merge semantics. -/

/-- A hidden input field of an HTML response. -/
structure HiddenField where
  name : String
  value : String
deriving Repr

/-- An HTML response, reduced to its hidden fields. -/
abbrev HtmlDoc := List HiddenField

/-- A token dictionary (insertion-ordered, unique keys as built by the
driver). -/
abbrev TokenMap := List (String × String)

/-- Lookup in a token dictionary. -/
def lookupTok (d : TokenMap) (k : String) : Option String :=
  (d.find? (fun kv => kv.1 == k)).map (fun kv => kv.2)

/-- Store one binding, Python-dict style: overwrite in place if the
key exists, else append. -/
def dictUpd (d : TokenMap) (k v : String) : TokenMap :=
  if d.any (fun kv => kv.1 == k) then
    d.map (fun kv => if kv.1 == k then (kv.1, v) else kv)
  else d ++ [(k, v)]

/-- Python `d.update(e)`: fold the new bindings left to right. -/
def dictUpdate (d e : TokenMap) : TokenMap :=
  e.foldl (fun acc kv => dictUpd acc kv.1 kv.2) d

/-- `extract_hidden_field`: the first occurrence with a non-empty
value wins; a name that occurs only with empty values yields `''`;
an absent name yields `None`. -/
def extractHiddenField (doc : HtmlDoc) (f : String) : Option String :=
  match doc.find? (fun h => h.name == f && !(h.value == "")) with
  | some h => some h.value
  | .none =>
      match doc.find? (fun h => h.name == f) with
      | some _ => some ""
      | .none => .none

/-- The fixed token names probed by `extract_aspnet_tokens`, with the
toolkit hidden field probed afterwards. -/
def aspnetTokenNames : List String :=
  ["__VIEWSTATE", "__VIEWSTATEGENERATOR", "__EVENTVALIDATION",
   "__VIEWSTATEENCRYPTED", "__PREVIOUSPAGE", "__EVENTARGUMENT",
   "__EVENTTARGET", "__LASTFOCUS", "__SCROLLPOSITIONX", "__SCROLLPOSITIONY",
   "ctl00_cphMainApp_ToolkitScriptManager1_HiddenField"]

/-- `extract_aspnet_tokens`: collect every probed name that is
present (possibly with an empty value). -/
def extractAspnetTokens (doc : HtmlDoc) : TokenMap :=
  aspnetTokenNames.foldl (fun acc n =>
    match extractHiddenField doc n with
    | some v => acc ++ [(n, v)]
    | .none => acc) []

/-- Token-state effect of `accept_terms` (lines 528–563): the POST
response's tokens are merged in; when the Selenium click succeeds the
rendered page's tokens are merged on top, otherwise the step returns
after the first merge. -/
def acceptTermsTokens (prev : TokenMap) (postResp : HtmlDoc) (selPage : Option HtmlDoc) : TokenMap :=
  let t1 := dictUpdate prev (extractAspnetTokens postResp)
  match selPage with
  | some page => dictUpdate t1 (extractAspnetTokens page)
  | .none => t1

/-- Token-state effect of `search_property` (lines 631–675): same
two-stage merge as `accept_terms`. -/
def searchPropertyTokens (prev : TokenMap) (postResp : HtmlDoc) (selPage : Option HtmlDoc) : TokenMap :=
  let t1 := dictUpdate prev (extractAspnetTokens postResp)
  match selPage with
  | some page => dictUpdate t1 (extractAspnetTokens page)
  | .none => t1

/-- Token-state effect of `get_tax_info` (lines 713–731): exactly one
page capture is merged (from the click or from the JavaScript
fallback); if both fail the token set is left unchanged. -/
def getTaxInfoTokens (prev : TokenMap) (clickPage : Option HtmlDoc) : TokenMap :=
  match clickPage with
  | some page => dictUpdate prev (extractAspnetTokens page)
  | .none => prev

/-! ## Claim C7: installment type defaulting and textual cues -/

/-- The amended typing rule, written from the amended claim: the
`first`/`1st` cues force `1st_half` at any position; otherwise
position 1 yields `1st_half` (so a `second`/`2nd` cue cannot
override position 1); otherwise the `second`/`2nd` cues force
`2nd_half`; otherwise position 2 yields `2nd_half`; all other
positions get a positional label. -/
def specInstallmentTypeAmended (typeText : String) (n : Nat) : String :=
  if strContains typeText "first" || strContains typeText "1st" then "1st_half"
  else if n == 1 then "1st_half"
  else if strContains typeText "second" || strContains typeText "2nd" then "2nd_half"
  else if n == 2 then "2nd_half"
  else "installment_" ++ toString n

/-- C7 (counterexample): an installment at position 1 whose type text
contains `second` is labelled `1st_half`, not `2nd_half` as the claim
states — the position-1 default is disjoined into the first branch
and wins over the second-half cues. -/
theorem determineInstallmentType_second_cue_at_pos1 :
    determineInstallmentType [("type", PyVal.str "second")] 1 = "1st_half" ∧
    determineInstallmentType [("type", PyVal.str "second")] 1 ≠ "2nd_half" := by
  decide

/-- C7 (amended): `_determine_installment_type` agrees everywhere with
the amended rule: positional defaults with cue overrides, except that
at position 1 the positional default beats a `second`/`2nd` cue. -/
theorem determineInstallmentType_eq_amended (xs : PyDict) (n : Nat) :
    determineInstallmentType xs n
      = specInstallmentTypeAmended (strLower (pyStr (dget xs "type" (.str "")))) n := by
  unfold determineInstallmentType specInstallmentTypeAmended
  set t := strLower (pyStr (dget xs "type" (.str ""))) with ht
  by_cases h1 : (strContains t "first" || strContains t "1st") = true
  · simp [h1]
  · by_cases h2 : n = 1
    · simp [h1, h2]
    · by_cases h3 : (strContains t "second" || strContains t "2nd") = true
      · simp [h1, h2, h3]
      · by_cases h4 : n = 2
        · simp [h1, h2, h3, h4]
        · simp [h1, h2, h3, h4]

/-! ## Claim C8: `_extract_year_from_data` returns only 4-digit years
in `[1900, 2100]` -/

/-- Digit characters have code points in `[48, 57]`. -/
theorem charIsDigit_bounds (c : Char) (h : charIsDigit c = true) :
    48 ≤ c.toNat ∧ c.toNat ≤ 57 := by
  simpa [charIsDigit, Bool.and_eq_true, decide_eq_true_eq] using h

/-- The goodness predicate of claim C8. -/
def goodYearString (s : String) : Prop :=
  s.length = 4 ∧ s.data.all charIsDigit = true ∧ 1900 ≤ natOfDigits s ∧ natOfDigits s ≤ 2100

/-- Value of a four-character digit string. -/
theorem natOfDigits_four (c1 c2 c3 c4 : Char) :
    natOfDigits (String.mk [c1, c2, c3, c4])
      = (c1.toNat - 48) * 1000 + (c2.toNat - 48) * 100 + (c3.toNat - 48) * 10 + (c4.toNat - 48) := by
  show (((0 * 10 + (c1.toNat - 48)) * 10 + (c2.toNat - 48)) * 10 + (c3.toNat - 48)) * 10 + (c4.toNat - 48) = _
  ring

/-- A successful single-position regex match is a good year string. -/
theorem checkYearHere_good (prev : Option Char) (cs : List Char) (s : String)
    (h : checkYearHere prev cs = some s) : goodYearString s := by
  unfold checkYearHere at h
  split at h
  case h_2 => exact absurd h (by simp)
  case h_1 c1 c2 c3 c4 rest =>
    split_ifs at h with hcond
    injection h with hs
    subst hs
    simp only [Bool.and_eq_true, Bool.or_eq_true] at hcond
    obtain ⟨⟨⟨⟨hb, h12⟩, h3⟩, h4⟩, hrest⟩ := hcond
    have hv3 := charIsDigit_bounds c3 h3
    have hv4 := charIsDigit_bounds c4 h4
    have hall : ∀ a b : Char, charIsDigit a = true → charIsDigit b = true →
        (String.mk [a, b, c3, c4]).data.all charIsDigit = true := by
      intro a b ha hb2
      show ([a, b, c3, c4].all charIsDigit) = true
      simp only [List.all_cons, List.all_nil, Bool.and_eq_true, and_true]
      exact ⟨ha, hb2, h3, h4⟩
    rcases h12 with ⟨e1, e2⟩ | ⟨e1, e2⟩ <;>
        simp only [beq_iff_eq] at e1 e2 <;> subst e1 <;> subst e2
    · refine ⟨rfl, hall '1' '9' (by decide) (by decide), ?_, ?_⟩ <;>
      · rw [natOfDigits_four]
        have t1 : ('1' : Char).toNat = 49 := by decide
        have t2 : ('9' : Char).toNat = 57 := by decide
        rw [t1, t2]
        omega
    · refine ⟨rfl, hall '2' '0' (by decide) (by decide), ?_, ?_⟩ <;>
      · rw [natOfDigits_four]
        have t1 : ('2' : Char).toNat = 50 := by decide
        have t2 : ('0' : Char).toNat = 48 := by decide
        rw [t1, t2]
        omega

/-- Every string the regex scan returns is a good year string. -/
theorem scanYear_good (cs : List Char) : ∀ (prev : Option Char) (s : String),
    scanYear prev cs = some s → goodYearString s := by
  induction cs with
  | nil => intro prev s h; simp [scanYear] at h
  | cons c rest ih =>
      intro prev s h
      rw [scanYear] at h
      split at h
      case h_1 y heq =>
        injection h with hy
        exact hy ▸ checkYearHere_good prev (c :: rest) y heq
      case h_2 => exact ih (some c) s h

/-- The string-value branch only returns good year strings. -/
theorem stringValueScan_good (xs : List (String × PyVal)) (s : String)
    (h : stringValueScan xs = some s) : goodYearString s := by
  induction xs with
  | nil => simp [stringValueScan] at h
  | cons kv rest ih =>
      obtain ⟨k, v⟩ := kv
      cases v with
      | str sv =>
          replace h : (match findYearMatch sv with
            | some y =>
                if 1900 ≤ natOfDigits y ∧ natOfDigits y ≤ 2100 then some y
                else stringValueScan rest
            | .none => stringValueScan rest) = some s := h
          split at h
          case h_1 y heq =>
            split_ifs at h
            · injection h with hy
              exact hy ▸ scanYear_good sv.data .none y heq
            · exact ih h
          case h_2 => exact ih h
      | none => exact ih h
      | int n => exact ih h
      | float q => exact ih h
      | list l => exact ih h
      | dict d => exact ih h

/-- The explicit-field branch only returns good year strings. -/
theorem yearFieldScan_good (xs : PyDict) (fs : List String) (s : String)
    (h : yearFieldScan xs fs = some s) : goodYearString s := by
  induction fs generalizing s with
  | nil => simp [yearFieldScan] at h
  | cons f rest ih =>
      rw [yearFieldScan] at h
      split at h
      case h_1 v heq =>
        split_ifs at h with ht hd hr
        · injection h with hy
          subst hy
          simp only [Bool.and_eq_true] at hd
          have hdig := hd.1
          simp only [strIsDigit, Bool.and_eq_true] at hdig
          exact ⟨beq_iff_eq.mp hd.2, hdig.2, hr.1, hr.2⟩
        · exact ih s h
        · exact ih s h
        · exact ih s h
      case h_2 => exact ih s h

/-- C8: `_extract_year_from_data` returns `None` or a string of
exactly four digit characters whose numeric value lies in
`[1900, 2100]` — both through the explicit year-named field path and
through the regex scan of string values. -/
theorem extractYearFromData_good (v : PyVal) (s : String)
    (h : extractYearFromData v = some s) :
    s.length = 4 ∧ s.data.all charIsDigit = true ∧
      1900 ≤ natOfDigits s ∧ natOfDigits s ≤ 2100 := by
  cases v with
  | dict xs =>
      rw [extractYearFromData] at h
      split at h
      case h_1 y heq =>
        injection h with hy
        exact hy ▸ yearFieldScan_good xs yearFields y heq
      case h_2 => exact stringValueScan_good xs s h
  | none => simp [extractYearFromData] at h
  | str sv => simp [extractYearFromData] at h
  | int n => simp [extractYearFromData] at h
  | float q => simp [extractYearFromData] at h
  | list l => simp [extractYearFromData] at h

/-- C8 witness: a concrete record with an explicit year field. -/
theorem extractYearFromData_good_witness :
    extractYearFromData (.dict [("year", .str "2023")]) = some "2023" ∧
      ("2023" : String).length = 4 ∧ ("2023" : String).data.all charIsDigit = true ∧
      1900 ≤ natOfDigits "2023" ∧ natOfDigits "2023" ≤ 2100 :=
  ⟨rfl, extractYearFromData_good (.dict [("year", .str "2023")]) "2023" rfl⟩

/-! ## Claim C9: token capture merges into the driver's token set -/

/-- Unfolding of token lookup over a cons cell. -/
theorem lookupTok_cons (a : String × String) (t : TokenMap) (k : String) :
    lookupTok (a :: t) k = if a.1 == k then some a.2 else lookupTok t k := by
  unfold lookupTok
  cases h : a.1 == k <;> simp [List.find?, h]

/-- Token lookup over an append prefers the left list. -/
theorem lookupTok_append (d e : TokenMap) (k : String) :
    lookupTok (d ++ e) k
      = match lookupTok d k with
        | some v => some v
        | .none => lookupTok e k := by
  induction d with
  | nil => simp [lookupTok]
  | cons a t ih =>
      rw [List.cons_append, lookupTok_cons, lookupTok_cons]
      cases h : a.1 == k <;> simp [ih]

/-- Lookup after a single Python-style store. -/
theorem lookupTok_mapUpd (d : TokenMap) (k v k' : String) :
    lookupTok (d.map (fun kv => if kv.1 == k then (kv.1, v) else kv)) k'
      = if k' = k then (lookupTok d k).map (fun _ => v) else lookupTok d k' := by
  induction d with
  | nil => simp [lookupTok]
  | cons a t ih =>
      set f : String × String → String × String :=
        fun kv => if kv.1 == k then (kv.1, v) else kv with hf
      simp only [List.map_cons, lookupTok_cons]
      by_cases hak : a.1 = k
      · have hfa : f a = (a.1, v) := by simp [hf, hak]
        rw [hfa]
        by_cases hk'k : k' = k
        · subst hk'k
          simp [hak, ih]
        · have hne : (a.1 == k') = false := by
            rw [beq_eq_false_iff_ne, hak]
            exact fun h => hk'k h.symm
          simp [hne, ih, hk'k]
      · have hne : (a.1 == k) = false := beq_eq_false_iff_ne.mpr hak
        have hfa : f a = a := by
          rw [hf]
          simp only [hne, Bool.false_eq_true, if_false]
        rw [hfa]
        by_cases hk'k : k' = k
        · subst hk'k
          simp [hne, ih]
        · by_cases hak' : a.1 = k'
          · simp [hak', ih, hk'k]
          · have hne' : (a.1 == k') = false := beq_eq_false_iff_ne.mpr hak'
            simp [hne', ih, hk'k]

/-- A present key is found by lookup. -/
theorem lookupTok_isSome_of_any (d : TokenMap) (k : String)
    (h : d.any (fun kv => kv.1 == k) = true) : (lookupTok d k).isSome = true := by
  induction d with
  | nil => simp at h
  | cons a t ih =>
      rw [lookupTok_cons]
      cases hak : a.1 == k
      · simp only [List.any_cons, hak, Bool.false_or] at h
        simpa [hak] using ih h
      · simp [hak]

/-- An absent key is not found by lookup. -/
theorem lookupTok_none_of_not_any (d : TokenMap) (k : String)
    (h : d.any (fun kv => kv.1 == k) = false) : lookupTok d k = .none := by
  induction d with
  | nil => simp [lookupTok]
  | cons a t ih =>
      simp only [List.any_cons, Bool.or_eq_false_iff] at h
      rw [lookupTok_cons, h.1]
      simpa using ih h.2

/-- Lookup after `dictUpd`: the stored key maps to the new value,
every other key is untouched. -/
theorem lookupTok_dictUpd (d : TokenMap) (k v k' : String) :
    lookupTok (dictUpd d k v) k' = if k' = k then some v else lookupTok d k' := by
  by_cases hany : d.any (fun kv => kv.1 == k) = true
  · rw [show dictUpd d k v = d.map (fun kv => if kv.1 == k then (kv.1, v) else kv) from by
      unfold dictUpd; rw [if_pos hany]]
    rw [lookupTok_mapUpd]
    by_cases hk' : k' = k
    · have hs := lookupTok_isSome_of_any d k hany
      cases hl : lookupTok d k
      · rw [hl] at hs; simp at hs
      · simp [hk', hl]
    · simp [hk']
  · rw [show dictUpd d k v = d ++ [(k, v)] from by
      unfold dictUpd; rw [if_neg hany]]
    rw [lookupTok_append]
    have hnone := lookupTok_none_of_not_any d k (by rw [Bool.not_eq_true] at hany; exact hany)
    by_cases hk' : k' = k
    · subst hk'
      rw [hnone]
      simp [lookupTok_cons, lookupTok]
    · have hkne : (k == k') = false := beq_eq_false_iff_ne.mpr (fun h => hk' h.symm)
      cases hl : lookupTok d k'
      · simp [hl, lookupTok_cons, lookupTok, hkne, hk']
      · simp [hl, hk']

/-- Lookup after a Python `dict.update`: the last binding in the new
map wins, keys absent from the new map keep their previous value. -/
theorem lookupTok_dictUpdate (e : TokenMap) : ∀ (d : TokenMap) (k : String),
    lookupTok (dictUpdate d e) k
      = match lookupTok e.reverse k with
        | some v => some v
        | .none => lookupTok d k := by
  induction e with
  | nil => intro d k; simp [dictUpdate, lookupTok]
  | cons a t ih =>
      intro d k
      have hfold : dictUpdate d (a :: t) = dictUpdate (dictUpd d a.1 a.2) t := rfl
      rw [hfold, ih]
      have hrev : (a :: t).reverse = t.reverse ++ [a] := by simp
      rw [hrev, lookupTok_append]
      cases hl : lookupTok t.reverse k
      · rw [lookupTok_dictUpd, lookupTok_cons]
        by_cases hk : k = a.1
        · simp [hk, lookupTok]
        · have : (a.1 == k) = false := beq_eq_false_iff_ne.mpr (fun h => hk h.symm)
          simp [hk, this, lookupTok]
      · rfl

/-- The tokens captured during a two-exchange step (POST response,
then the optional Selenium page). -/
def stepExtracted (post : HtmlDoc) (sel : Option HtmlDoc) : TokenMap :=
  extractAspnetTokens post ++
    (match sel with
     | some p => extractAspnetTokens p
     | .none => [])

/-- The tokens captured during an optional single page capture. -/
def optExtracted : Option HtmlDoc → TokenMap
  | some p => extractAspnetTokens p
  | .none => []

/-- Two successive updates behave as one update with the concatenated
captures. -/
theorem lookupTok_two_updates (prev : TokenMap) (e1 e2 : TokenMap) (k : String) :
    lookupTok (dictUpdate (dictUpdate prev e1) e2) k
      = match lookupTok (e1 ++ e2).reverse k with
        | some v => some v
        | .none => lookupTok prev k := by
  rw [lookupTok_dictUpdate, lookupTok_dictUpdate]
  rw [List.reverse_append, lookupTok_append]
  cases h2 : lookupTok e2.reverse k <;> cases h1 : lookupTok e1.reverse k <;> rfl

/-- C9: after each token-capturing protocol step of
`BrownCountyScraper` (`accept_terms`, `search_property`,
`get_tax_info`), the driver's token set is the previous token set
merged with the tokens extracted from that step's response(s): a
token present in a captured response takes the (latest) captured
value, and a stored token absent from the captured responses keeps
its previous value. -/
theorem protocol_step_tokens_merge (prev : TokenMap) (post : HtmlDoc)
    (sel page : Option HtmlDoc) (k : String) :
    (lookupTok (acceptTermsTokens prev post sel) k
       = match lookupTok (stepExtracted post sel).reverse k with
         | some v => some v
         | .none => lookupTok prev k) ∧
    (lookupTok (searchPropertyTokens prev post sel) k
       = match lookupTok (stepExtracted post sel).reverse k with
         | some v => some v
         | .none => lookupTok prev k) ∧
    (lookupTok (getTaxInfoTokens prev page) k
       = match lookupTok (optExtracted page).reverse k with
         | some v => some v
         | .none => lookupTok prev k) := by
  refine ⟨?_, ?_, ?_⟩
  · cases sel with
    | some p =>
        show lookupTok (dictUpdate (dictUpdate prev (extractAspnetTokens post)) (extractAspnetTokens p)) k = _
        rw [lookupTok_two_updates]
        rfl
    | none =>
        show lookupTok (dictUpdate prev (extractAspnetTokens post)) k = _
        rw [lookupTok_dictUpdate]
        simp [stepExtracted]
  · cases sel with
    | some p =>
        show lookupTok (dictUpdate (dictUpdate prev (extractAspnetTokens post)) (extractAspnetTokens p)) k = _
        rw [lookupTok_two_updates]
        rfl
    | none =>
        show lookupTok (dictUpdate prev (extractAspnetTokens post)) k = _
        rw [lookupTok_dictUpdate]
        simp [stepExtracted]
  · cases page with
    | some p =>
        show lookupTok (dictUpdate prev (extractAspnetTokens p)) k = _
        rw [lookupTok_dictUpdate]
        rfl
    | none =>
        show lookupTok prev k = _
        simp [optExtracted, lookupTok]

/-! ## Claim C1: at most one DelinquentTax row per (parcel_id, tax_year) -/

/-- Two explicit unpaid entries for the same year, both with positive
amounts. -/
def bundleC1dup : PyVal :=
  .dict [("parcel_id", .str "P1"),
         ("tax_data", .dict [("unpaid_taxes",
            .list [.dict [("year", .str "2023"), ("amount", .float 75)],
                   .dict [("year", .str "2023"), ("amount", .float 80)]])])]

/-- C1 (counterexample): the deduplication guards only the
installment-derived phase, so a bundle with two explicit unpaid
entries for 2023 produces two DelinquentTax rows for
(parcel_id, 2023), refuting "at most one row per (parcel_id,
tax_year)". -/
theorem delinquent_duplicate_explicit_rows :
    (normalizeScrapedData initState [bundleC1dup] "T").map
        (fun p => (p.1.delinquent_taxes.filter
          (fun r => r.tax_year == some "2023")).length)
      = .ok 2 := by
  rfl

/-- The worked example of the spec: one explicit unpaid entry for 2023
with amount 75, plus two delinquent installments for 2023. -/
def exC1TaxData : PyVal :=
  .dict [("unpaid_taxes", .list [.dict [("year", .str "2023"), ("amount", .float 75)]]),
         ("installments",
          .list [.dict [("year", .str "2023"), ("status", .str "delinquent"), ("amount", .float 100)],
                 .dict [("year", .str "2023"), ("status", .str "delinquent"), ("amount", .float 50)]])]

/-- The single row the worked example produces — the explicit one. -/
def exC1Row : DelinquentRow :=
  { parcel_id := .str "P1", property_id := .none, tax_year := some "2023",
    delinquent_amount := 75, status := "delinquent",
    installments_delinquent := "", extraction_date := "T" }

attribute [local semireducible] Rat.add in
/-- C1 (amended): the installment-derived phase never duplicates a
tax year — the rows it appends have pairwise-distinct years, and none
of them repeats the year of any row already present (in particular of
any explicit unpaid row); the worked example therefore yields exactly
one row for (parcel_id, 2023), the explicit one.  (Explicit unpaid
rows themselves are not deduplicated; see the counterexample.) -/
theorem delinquent_derived_no_duplicates :
    (∀ (pid : PyVal) (pinfoId : Option String) (now : String)
        (start : List DelinquentRow) (groups : List (String × Rat × List PyVal)),
      ∃ neu, delinqDerivedRows pid pinfoId now start groups = start ++ neu ∧
        neu.Pairwise (fun a b => a.tax_year ≠ b.tax_year) ∧
        ∀ d ∈ neu, ∀ e ∈ start, d.tax_year ≠ e.tax_year) ∧
    extractDelinquentTaxes (.str "P1") .none exC1TaxData "T" = .ok ([exC1Row], exC1TaxData) := by
  constructor
  · intro pid pinfoId now start groups
    induction groups generalizing start with
    | nil => exact ⟨[], by simp [delinqDerivedRows], List.Pairwise.nil, by simp⟩
    | cons g rest ih =>
        obtain ⟨y, tot, insts⟩ := g
        rw [delinqDerivedRows]
        split_ifs with htot hany
        · exact ih start
        · set row : DelinquentRow :=
            { parcel_id := pid, property_id := pinfoId, tax_year := some y,
              delinquent_amount := tot, status := "delinquent",
              installments_delinquent := instNumsJoin insts,
              extraction_date := now } with hrow
          have hcurow : ∀ e ∈ start, ¬(e.tax_year = some y) := by
            intro e he hcon
            apply hany
            exact List.any_eq_true.mpr ⟨e, he, beq_iff_eq.mpr hcon⟩
          obtain ⟨neu, heq, hpw, hdisj⟩ := ih (start ++ [row])
          refine ⟨row :: neu, ?_, ?_, ?_⟩
          · rw [heq]
            simp
          · constructor
            · intro b hb
              exact (hdisj b hb row (by simp)).symm
            · exact hpw
          · intro d hd e he
            rcases List.mem_cons.mp hd with hd | hd
            · subst hd
              show row.tax_year ≠ e.tax_year
              rw [hrow]
              exact fun hcon => hcurow e he hcon.symm
            · exact hdisj d hd e (by simp [he])
        · exact ih start
  · rfl

/-- C1 witness for the universal part: a concrete group list. -/
theorem delinquent_derived_no_duplicates_witness :
    ∃ neu, delinqDerivedRows (.str "P") .none "T" [] [("2023", 150, [])] = [] ++ neu ∧
      neu.Pairwise (fun a b => a.tax_year ≠ b.tax_year) ∧
      ∀ d ∈ neu, ∀ e ∈ ([] : List DelinquentRow), d.tax_year ≠ e.tax_year :=
  delinquent_derived_no_duplicates.1 (.str "P") .none "T" [] [("2023", 150, [])]

/-! ## Claim C3: per-year sum of delinquent installments -/

/-- A year-keyed bundle with two delinquent installments for 2023
(amounts 100 and 50) and no explicit unpaid-taxes entry. -/
def bundleC3yk : PyVal :=
  .dict [("parcel_id", .str "P1"),
         ("tax_data", .dict [("2023", .dict [("installments",
            .list [.dict [("year", .str "2023"), ("status", .str "delinquent"), ("amount", .float 100)],
                   .dict [("year", .str "2023"), ("status", .str "delinquent"), ("amount", .float 50)]])])])]

/-- C3 (counterexample): the per-year summation of
`_extract_delinquent_taxes` (lines 288–292) reads only the top-level
`installments` list (plus the `page_extracted`/`api_extracted`
sub-bundle lists) and never the lists nested under year keys, so a
year-keyed bundle with two delinquent 2023 installments of 100 and 50
and no explicit unpaid entry yields **zero** DelinquentTax rows — not
the one 150-row the claim states — even though those installments do
resolve to delinquent for 2023 (as the installments table shows). -/
theorem delinquent_sum_year_keyed_no_row :
    (normalizeScrapedData initState [bundleC3yk] "T").map
        (fun p => (p.1.delinquent_taxes.length,
                   p.1.installments.map (fun r => (r.status, r.tax_year, r.amount))))
      = .ok (0, [("delinquent", some "2023", some 100), ("delinquent", some "2023", some 50)]) := by
  rfl

attribute [local semireducible] Rat.add in
/-- C3 (amended): the per-year delinquent summation applies only to a
*flat* bundle — one whose tax_data carries its installments in the
top-level `installments` list: for such a bundle with exactly two
installments, both resolving to the same truthy year `y` with status
`delinquent` and extracted amounts 100 and 50, and whose explicit
unpaid entries yield no row for `y`, the delinquent extraction
produces exactly one row for year `y`, with
`delinquent_amount = 150`.  (Installments grouped under year keys are
never scanned by this phase and contribute no derived row; see the
counterexample.) -/
theorem delinquent_sum_two_installments
    (pid : PyVal) (pinfo : Option PropertyRow) (now : String) (y : String)
    (us : List PyVal) (d1 d2 : PyDict)
    (h1y : extractYearFromData (.dict d1) = some y)
    (h2y : extractYearFromData (.dict d2) = some y)
    (h1s : determineInstallmentStatus d1 = "delinquent")
    (h2s : determineInstallmentStatus d2 = "delinquent")
    (h1a : extractAmount d1 ["amount", "balance", "unpaid", "owed", "remaining"] = some 100)
    (h2a : extractAmount d2 ["amount", "balance", "unpaid", "owed", "remaining"] = some 50)
    (hex : ∀ e ∈ delinqExplicitRows pid (pinfoPropertyId pinfo) now
        [("unpaid_taxes", PyVal.list us), ("installments", PyVal.list [.dict d1, .dict d2])] us,
      e.tax_year ≠ some y) :
    ∃ rows tax',
      extractDelinquentTaxes pid pinfo
          (.dict [("unpaid_taxes", PyVal.list us),
                  ("installments", PyVal.list [.dict d1, .dict d2])]) now
        = .ok (rows, tax') ∧
      (rows.filter (fun r => r.tax_year == some y)).map (fun r => r.delinquent_amount)
        = [150] := by
  have hyne : ¬(y = "") := by
    have hg := extractYearFromData_good (.dict d1) y h1y
    intro h
    rw [h] at hg
    simp at hg
  have hyT : optStrTruthy (some y) = true := by simp [optStrTruthy, hyne]
  have hgroups : groupDelinqInstallments [PyVal.dict d1, PyVal.dict d2] []
      = [(y, 0 + 100 + 50, [PyVal.dict d1, PyVal.dict d2])] := by
    rw [groupDelinqInstallments]
    simp only [h1y, h1a, h1s, hyT]
    norm_num [addToGroup]
    rw [groupDelinqInstallments]
    simp only [h2y, h2a, h2s, hyT]
    norm_num [addToGroup]
    rw [groupDelinqInstallments]
  set ex := delinqExplicitRows pid (pinfoPropertyId pinfo) now
      [("unpaid_taxes", PyVal.list us), ("installments", PyVal.list [.dict d1, .dict d2])] us
    with hexdef
  have hanyex : ex.any (fun d => d.tax_year == some y) = false := by
    rw [Bool.eq_false_iff]
    intro hc
    rcases List.any_eq_true.mp hc with ⟨e, he, hp⟩
    exact hex e he (beq_iff_eq.mp hp)
  have htot : ((0 : Rat) + 100 + 50) > 0 := by norm_num
  have hstep : extractDelinquentTaxes pid pinfo
      (.dict [("unpaid_taxes", PyVal.list us),
              ("installments", PyVal.list [.dict d1, .dict d2])]) now
      = .ok (delinqDerivedRows pid (pinfoPropertyId pinfo) now ex
              (groupDelinqInstallments [PyVal.dict d1, PyVal.dict d2] []),
             .dict [("unpaid_taxes", PyVal.list us),
                    ("installments", PyVal.list [.dict d1, .dict d2])]) := rfl
  rw [hgroups] at hstep
  have hderived : delinqDerivedRows pid (pinfoPropertyId pinfo) now ex
      [(y, 0 + 100 + 50, [PyVal.dict d1, PyVal.dict d2])]
      = ex ++ [{ parcel_id := pid, property_id := pinfoPropertyId pinfo, tax_year := some y,
                 delinquent_amount := 0 + 100 + 50, status := "delinquent",
                 installments_delinquent := instNumsJoin [PyVal.dict d1, PyVal.dict d2],
                 extraction_date := now }] := by
    rw [delinqDerivedRows, if_pos htot, hanyex]
    simp only [Bool.false_eq_true, if_false]
    rw [delinqDerivedRows]
  rw [hderived] at hstep
  refine ⟨_, _, hstep, ?_⟩
  rw [List.filter_append]
  have hfe : ex.filter (fun r => r.tax_year == some y) = [] := by
    apply List.filter_eq_nil_iff.mpr
    intro e he
    simp only [beq_iff_eq]
    exact hex e he
  rw [hfe]
  simp only [List.nil_append, List.filter_cons, List.filter_nil, beq_self_eq_true, if_true,
    List.map_cons, List.map_nil]
  norm_num

/-- C3 witness: a concrete bundle with two delinquent installments. -/
theorem delinquent_sum_two_installments_witness :
    ∃ rows tax',
      extractDelinquentTaxes (.str "P1") .none
          (.dict [("unpaid_taxes", PyVal.list []),
                  ("installments", PyVal.list
                    [.dict [("year", PyVal.str "2023"), ("status", PyVal.str "delinquent"),
                            ("amount", PyVal.float 100)],
                     .dict [("year", PyVal.str "2023"), ("status", PyVal.str "delinquent"),
                            ("amount", PyVal.float 50)]])]) "T"
        = .ok (rows, tax') ∧
      (rows.filter (fun r => r.tax_year == some "2023")).map (fun r => r.delinquent_amount)
        = [150] :=
  delinquent_sum_two_installments (.str "P1") .none "T" "2023" []
    [("year", PyVal.str "2023"), ("status", PyVal.str "delinquent"), ("amount", PyVal.float 100)]
    [("year", PyVal.str "2023"), ("status", PyVal.str "delinquent"), ("amount", PyVal.float 50)]
    rfl rfl rfl rfl rfl rfl (fun e he => absurd he (List.not_mem_nil e))

/-! ## Claim C6: installment numbering restarts per year grouping -/

/-- `Except` bind on a success reduces to the continuation. -/
theorem exceptBindOk {α β : Type} (a : α) (f : α → Except String β) :
    ((Except.ok a : Except String α) >>= f) = f a := rfl

/-- A digit-string key differs from any non-digit key. -/
theorem digit_key_ne (s t : String) (hs : strIsDigit s = true) (ht : strIsDigit t = false) :
    (s == t) = false := by
  rw [beq_eq_false_iff_ne]
  intro h
  subst h
  rw [hs] at ht
  exact absurd ht (by simp)

/-- The numbers assigned by a numbered iteration over dict entries
count up from the starting number. -/
theorem instRowsFromList_numbers (pid : PyVal) (pinfoId : Option String) (now : String)
    (taxYear : Option String) (d1 d2 : PyDict) (n : Nat) :
    (instRowsFromList pid pinfoId now taxYear [.dict d1, .dict d2] n).map
        (fun r => r.installment_number) = [n, n + 1] := by
  simp [instRowsFromList, mkInstRow]

/-- One digit-keyed year entry whose value holds a plain installment
list contributes its numbered rows and is passed through unchanged. -/
theorem instYearLoop_cons_digit (pid : PyVal) (pinfoId : Option String) (now : String)
    (k : String) (l : List PyVal) (rest : List (String × PyVal))
    (hk : strIsDigit k = true) :
    instYearLoop pid pinfoId now ((k, PyVal.dict [("installments", PyVal.list l)]) :: rest)
      = (instYearLoop pid pinfoId now rest).map
          (fun p => (instRowsFromList pid pinfoId now (some k) l 1 ++ p.1,
                     (k, PyVal.dict [("installments", PyVal.list l)]) :: p.2)) := by
  rw [instYearLoop]
  simp only [hk, Bool.true_or, if_true]
  have hm : mergedListWithExtends [("installments", PyVal.list l)] "installments"
      = .ok (.list l, [("installments", PyVal.list l)]) := rfl
  rw [hm]
  cases hr : instYearLoop pid pinfoId now rest with
  | ok p => rfl
  | error e => rfl

/-- C6: a year-keyed tax_data with two digit years, each holding two
dict installments, yields exactly four Installment rows whose numbers
run 1, 2, 1, 2 in encounter order (and the input dictionary is left
unchanged). -/
theorem installment_numbering_resets
    (pid : PyVal) (pinfo : Option PropertyRow) (now : String)
    (y1 y2 : String) (a1 a2 b1 b2 : PyDict)
    (hy1 : strIsDigit y1 = true) (hy2 : strIsDigit y2 = true) :
    ∃ rows,
      extractInstallments pid pinfo
          (.dict [(y1, .dict [("installments", .list [.dict a1, .dict a2])]),
                  (y2, .dict [("installments", .list [.dict b1, .dict b2])])]) now
        = .ok (rows,
               .dict [(y1, .dict [("installments", .list [.dict a1, .dict a2])]),
                      (y2, .dict [("installments", .list [.dict b1, .dict b2])])]) ∧
      rows.map (fun r => r.installment_number) = [1, 2, 1, 2] := by
  have hnd : strIsDigit "installments" = false := by decide
  have hnp : strIsDigit "page_extracted" = false := by decide
  have hna : strIsDigit "api_extracted" = false := by decide
  have h1i := digit_key_ne y1 "installments" hy1 hnd
  have h2i := digit_key_ne y2 "installments" hy2 hnd
  have h1p := digit_key_ne y1 "page_extracted" hy1 hnp
  have h2p := digit_key_ne y2 "page_extracted" hy2 hnp
  have h1a := digit_key_ne y1 "api_extracted" hy1 hna
  have h2a := digit_key_ne y2 "api_extracted" hy2 hna
  set ysA : PyDict := [("installments", PyVal.list [.dict a1, .dict a2])] with hysA
  set ysB : PyDict := [("installments", PyVal.list [.dict b1, .dict b2])] with hysB
  have hloop : instYearLoop pid (pinfoPropertyId pinfo) now [(y1, .dict ysA), (y2, .dict ysB)]
      = .ok (instRowsFromList pid (pinfoPropertyId pinfo) now (some y1) [.dict a1, .dict a2] 1
              ++ instRowsFromList pid (pinfoPropertyId pinfo) now (some y2) [.dict b1, .dict b2] 1,
             [(y1, .dict ysA), (y2, .dict ysB)]) := by
    rw [hysA, hysB, instYearLoop_cons_digit pid (pinfoPropertyId pinfo) now y1 _ _ hy1,
      instYearLoop_cons_digit pid (pinfoPropertyId pinfo) now y2 _ _ hy2]
    simp [instYearLoop, Except.map, pure, Except.pure]
  have hmerged : mergedListWithExtends [(y1, PyVal.dict ysA), (y2, PyVal.dict ysB)] "installments"
      = .ok (.list [], [(y1, PyVal.dict ysA), (y2, PyVal.dict ysB)]) := by
    unfold mergedListWithExtends
    simp [dcontains, dlookup, dget, List.find?, h1i, h2i, h1p, h2p, h1a, h2a]
    rfl
  have hany : ([(y1, PyVal.dict ysA), (y2, PyVal.dict ysB)].any
      (fun kv => strIsDigit kv.1)) = true := by
    simp [List.any_cons, hy1]
  refine ⟨instRowsFromList pid (pinfoPropertyId pinfo) now (some y1) [.dict a1, .dict a2] 1
      ++ instRowsFromList pid (pinfoPropertyId pinfo) now (some y2) [.dict b1, .dict b2] 1, ?_, ?_⟩
  · have hnc : dcontains [(y1, PyVal.dict ysA), (y2, PyVal.dict ysB)] "page_extracted" = false := by
      simp [dcontains, dlookup, List.find?, h1p, h2p]
    simp [extractInstallments, hloop, hmerged, hany, hnc, pure, Except.pure, exceptBindOk, pyIter]
  · rw [List.map_append, instRowsFromList_numbers, instRowsFromList_numbers]
    rfl

/-- C6 witness: concrete years and installments. -/
theorem installment_numbering_resets_witness :
    ∃ rows,
      extractInstallments (.str "P1") .none
          (.dict [("2023", .dict [("installments", .list [.dict [("amount", PyVal.float 10)], .dict [("amount", PyVal.float 20)]])]),
                  ("2024", .dict [("installments", .list [.dict [("amount", PyVal.float 30)], .dict [("amount", PyVal.float 40)]])])]) "T"
        = .ok (rows,
               .dict [("2023", .dict [("installments", .list [.dict [("amount", PyVal.float 10)], .dict [("amount", PyVal.float 20)]])]),
                      ("2024", .dict [("installments", .list [.dict [("amount", PyVal.float 30)], .dict [("amount", PyVal.float 40)]])])]) ∧
      rows.map (fun r => r.installment_number) = [1, 2, 1, 2] :=
  installment_numbering_resets (.str "P1") .none "T" "2023" "2024"
    [("amount", PyVal.float 10)] [("amount", PyVal.float 20)]
    [("amount", PyVal.float 30)] [("amount", PyVal.float 40)]
    (by decide) (by decide)

/-! ## Claim C2: `normalize_scraped_data` never raises -/

/-- A bundle whose `tax_data` carries a non-dict `page_extracted`
sub-bundle — the shape the claim says must degrade gracefully. -/
def bundleC2 : PyVal :=
  .dict [("parcel_id", .str "P1"), ("tax_data", .dict [("page_extracted", .int 5)])]

/-- C2: the code, not the claim, is at fault: on a bundle whose
`tax_data['page_extracted']` is not a dict,
`tax_data['page_extracted'].get('installments', [])` (line 216)
raises `AttributeError` and the whole `normalize_scraped_data` call
aborts, instead of degrading to a skip as the spec requires (the
guard `isinstance(key, str)` at line 221 shows the defensive intent
that lines 215–218 miss). -/
theorem normalize_raises_on_nondict_sub_bundle :
    normalizeScrapedData initState [bundleC2] "T" = .error "AttributeError" := by
  rfl

/-! ## Claim C5: the input bundles are read-only -/

/-- An installment entry with amount 10. -/
def instA : PyVal := .dict [("amount", .float 10)]

/-- An installment entry with amount 20, nested in `page_extracted`. -/
def instB : PyVal := .dict [("amount", .float 20)]

/-- A bundle with both a top-level `installments` list and a
`page_extracted` sub-bundle with its own `installments` list. -/
def bundleC5 : PyVal :=
  .dict [("parcel_id", .str "P1"),
         ("tax_data", .dict [("installments", .list [instA]),
                             ("page_extracted", .dict [("installments", .list [instB])])])]

/-- The `installments` list stored inside a bundle's `tax_data`. -/
def bundleTaxInstallments (b : PyVal) : Option PyVal :=
  match b with
  | .dict rxs =>
      match dget rxs "tax_data" PyVal.none with
      | .dict txs => dlookup txs "installments"
      | _ => .none
  | _ => .none

/-- C5: the code, not the claim, is at fault: `normalize_scraped_data`
mutates its input.  The list aliasing in `_extract_installments`
(lines 212–218) and again in `_extract_delinquent_taxes` (lines
288–292) extends the bundle's own `installments` list in place, so
after normalization the bundle's `tax_data['installments']` holds
`[A, B, B]` instead of the original `[A]` (with `B` double-counted
from `page_extracted`). -/
theorem normalize_mutates_input_installments :
    (normalizeScrapedData initState [bundleC5] "T").map
        (fun p => p.2.map bundleTaxInstallments)
      = .ok [some (.list [instA, instB, instB])] ∧
    bundleTaxInstallments bundleC5 = some (.list [instA]) ∧
    (some (PyVal.list [instA, instB, instB]) : Option PyVal) ≠ some (PyVal.list [instA]) := by
  refine ⟨rfl, rfl, ?_⟩
  intro h
  injection h with h1
  have hlen := congrArg (fun v => match v with | PyVal.list l => l.length | _ => 0) h1
  simp at hlen

/-! ## Claim C10: the normalizer accumulates rows across calls -/

/-- Row lists derived from a bundle list do not depend on the
starting state: running from a shifted state shifts the result. -/
theorem normalizeScrapedData_shift (rs : List PyVal) :
    ∀ (st t : NormState) (now : String),
    normalizeScrapedData (appendState st t) rs now
      = (normalizeScrapedData t rs now).map (fun p => (appendState st p.1, p.2)) := by
  induction rs with
  | nil => intro st t now; rfl
  | cons r rest ih =>
      intro st t now
      rw [normalizeScrapedData, normalizeScrapedData]
      cases hq : processBundle r now with
      | error e => rfl
      | ok rp =>
          obtain ⟨rows, r'⟩ := rp
          simp only [exceptBindOk]
          have hassoc : appendState (appendState st t) rows = appendState st (appendState t rows) := by
            simp [appendState, List.append_assoc]
          rw [hassoc, ih]
          cases hr : normalizeScrapedData (appendState t rows) rest now with
          | error e => rfl
          | ok q => rfl

/-- C10: the five row lists of a `TaxDataNormalizer` instance are only
ever appended to: if a first call on a fresh instance leaves state
`s1`, and a second input derives rows `d` (as computed from a fresh
instance), then the second call on the same instance returns every
table of the first call extended with the second call's rows. -/
theorem normalize_accumulates
    (in1 in2 : List PyVal) (now1 now2 : String) (s1 : NormState) (a1 : List PyVal)
    (d : NormState) (a2 : List PyVal)
    (h1 : normalizeScrapedData initState in1 now1 = .ok (s1, a1))
    (h2 : normalizeScrapedData initState in2 now2 = .ok (d, a2)) :
    normalizeScrapedData s1 in2 now2 = .ok (appendState s1 d, a2) := by
  have hs : appendState s1 initState = s1 := by simp [appendState, initState]
  have hshift := normalizeScrapedData_shift in2 s1 initState now2
  rw [hs] at hshift
  rw [hshift, h2]
  rfl

/-- A bundle that yields exactly one Property row. -/
def bundleC10 : PyVal :=
  .dict [("parcel_id", .str "P1"), ("tax_data", .dict [("property_id", .str "PID7")])]

/-- The state a fresh normalizer is left in after `bundleC10`. -/
def stateC10 : NormState :=
  ⟨[{ parcel_id := .str "P1", property_id := some "PID7", owner_name := .none,
      municipality := PyVal.none, address := .none,
      extraction_date := "T", source := "lacrosse_county" }], [], [], [], []⟩

/-- C10 witness: two successive calls with the same single bundle. -/
theorem normalize_accumulates_witness :
    normalizeScrapedData stateC10 [bundleC10] "T" = .ok (appendState stateC10 stateC10, [bundleC10]) :=
  normalize_accumulates [bundleC10] [bundleC10] "T" "T" stateC10 [bundleC10] stateC10 [bundleC10]
    rfl rfl

/-! ## Claim C4: bundles without a resolvable property -/

/-- `Except` bind on a failure short-circuits. -/
theorem exceptBindErr {α β : Type} (e : String) (f : α → Except String β) :
    ((Except.error e : Except String α) >>= f) = .error e := rfl

/-- Appending an empty row set leaves the state unchanged. -/
theorem appendState_empty (s : NormState) : appendState s ⟨[], [], [], [], []⟩ = s := by
  simp [appendState]

/-- A bundle with no matching search entry and no `property_id`, but
with a non-empty year-keyed `tax_data`. -/
def bundleC4 : PyVal :=
  .dict [("parcel_id", .str "P1"),
         ("tax_data", .dict [("2023", .dict [("total", .float 100)])])]

/-- C4 (counterexample): such a bundle yields zero Property rows but
is *not* excluded from the other tables — its year-keyed `tax_data`
still contributes a tax-period row (with an unresolved property id),
refuting "the bundle contributes no rows to any of the five canonical
tables". -/
theorem bundle_without_property_contributes_rows :
    (normalizeScrapedData initState [bundleC4] "T").map
        (fun p => (p.1.properties.length, p.1.tax_periods.length))
      = .ok (0, 1) := by
  rfl

/-- C4 (amended): a bundle whose search results contain no entry
matching the parcel id and whose `tax_data` carries no truthy
`property_id` yields no Property row and leaves the `properties`
table unchanged; it contributes nothing at all only when its
`tax_data` is falsy (empty). -/
theorem no_match_yields_no_property_rows
    (pid search tax : PyVal) (now : String) (st : NormState)
    (hmatch : searchFindMatch pid search = .ok .none)
    (hpropid : ∀ txs, tax = PyVal.dict txs →
        pyStr (pyOrV (dget txs "property_id" PyVal.none) (.str "")) = "") :
    extractPropertyInfo pid search tax now = .ok .none ∧
    (∀ st' after, normalizeScrapedData st
        [.dict [("parcel_id", pid), ("search_data", search), ("tax_data", tax)]] now
        = .ok (st', after) → st'.properties = st.properties) ∧
    (pyTruthy tax = false → normalizeScrapedData st
        [.dict [("parcel_id", pid), ("search_data", search), ("tax_data", tax)]] now
      = .ok (st, [.dict [("parcel_id", pid), ("search_data", search), ("tax_data", tax)]])) := by
  have hp : extractPropertyInfo pid search tax now = .ok .none := by
    cases tax with
    | dict txs =>
        have h0 := hpropid txs rfl
        simp [extractPropertyInfo, hmatch, exceptBindOk, h0, optStrTruthy, pure, Except.pure]
    | none => simp [extractPropertyInfo, hmatch, exceptBindOk, optStrTruthy, pure, Except.pure]
    | str s => simp [extractPropertyInfo, hmatch, exceptBindOk, optStrTruthy, pure, Except.pure]
    | int n => simp [extractPropertyInfo, hmatch, exceptBindOk, optStrTruthy, pure, Except.pure]
    | float q => simp [extractPropertyInfo, hmatch, exceptBindOk, optStrTruthy, pure, Except.pure]
    | list l => simp [extractPropertyInfo, hmatch, exceptBindOk, optStrTruthy, pure, Except.pure]
  refine ⟨hp, ?_, ?_⟩
  · intro st' after h
    rw [normalizeScrapedData] at h
    cases hq : processBundle (.dict [("parcel_id", pid), ("search_data", search), ("tax_data", tax)]) now with
    | error e =>
        rw [hq, exceptBindErr] at h
        simp at h
    | ok rp =>
        obtain ⟨rows, r'⟩ := rp
        rw [hq] at h
        simp only [exceptBindOk] at h
        rw [normalizeScrapedData] at h
        simp only [pure, Except.pure, exceptBindOk] at h
        have hrows : rows.properties = [] := by
          simp [processBundle, asDict, exceptBindOk, dget, dlookup, List.find?, hp] at hq
          split at hq
          · cases h1 : extractTaxPeriods pid .none tax now with
            | error e =>
                rw [h1, exceptBindErr] at hq
                simp at hq
            | ok periods =>
                rw [h1] at hq
                rw [exceptBindOk] at hq
                cases h2 : extractInstallments pid .none tax now with
                | error e =>
                    rw [h2, exceptBindErr] at hq
                    simp at hq
                | ok ip =>
                    rw [h2] at hq
                    rw [exceptBindOk] at hq
                    obtain ⟨instRows, tax1⟩ := ip
                    cases h3 : extractDelinquentTaxes pid .none tax1 now with
                    | error e =>
                        rw [h3] at hq
                        simp [Functor.map, Except.map] at hq
                    | ok dp =>
                        rw [h3] at hq
                        simp only [Functor.map, Except.map] at hq
                        obtain ⟨delRows, tax2⟩ := dp
                        injection hq with hpair
                        injection hpair with e1 e2
                        subst e1
                        rfl
          · simp only [pure, Except.pure] at hq
            injection hq with hpair
            injection hpair with e1 e2
            subst e1
            rfl
        injection h with hpair
        injection hpair with e1 e2
        subst e1
        simp [appendState, hrows]
  · intro htax
    have hpb : processBundle (.dict [("parcel_id", pid), ("search_data", search), ("tax_data", tax)]) now
        = .ok (⟨[], [], [], [], []⟩,
               .dict [("parcel_id", pid), ("search_data", search), ("tax_data", tax)]) := by
      simp [processBundle, asDict, exceptBindOk, hp, htax, dget, dlookup, List.find?, pure, Except.pure]
    rw [normalizeScrapedData, hpb]
    simp only [exceptBindOk]
    rw [normalizeScrapedData]
    simp only [pure, Except.pure, exceptBindOk]
    rw [appendState_empty]

/-- C4 witness: empty search data, empty tax data. -/
theorem no_match_yields_no_property_rows_witness :
    extractPropertyInfo (.str "P1") (.dict []) (.dict []) "T" = .ok .none ∧
    (∀ st' after, normalizeScrapedData initState
        [.dict [("parcel_id", .str "P1"), ("search_data", .dict []), ("tax_data", .dict [])]] "T"
        = .ok (st', after) → st'.properties = initState.properties) ∧
    (pyTruthy (.dict []) = false → normalizeScrapedData initState
        [.dict [("parcel_id", .str "P1"), ("search_data", .dict []), ("tax_data", .dict [])]] "T"
      = .ok (initState, [.dict [("parcel_id", .str "P1"), ("search_data", .dict []), ("tax_data", .dict [])]])) :=
  no_match_yields_no_property_rows (.str "P1") (.dict []) (.dict []) "T" initState rfl
    (fun txs htxs => by cases htxs; rfl)

end Spec2Proof
